import Mathlib

/-!
# kamailio_exporter: the coordinator `appAction` of `main.go`

A shallow embedding of `appAction`.  The function is effectful, so it is
embedded as a pure function from the flag values (`Context`) and the answers of
the outside world (`World`) to the ordered list of calls it makes (`Event`),
the process-wide state it leaves behind (default registry, default mux) and the
way it ends (`Outcome`).  The default mux is process-wide and is filled by
package inits before `main` runs, so its content on entry is part of the
`World`.  The goroutine started by the `go` statement is
embedded as a function of its own (`pushAgent`); its endless `for` loop is
observed for a bounded number of iterations.

Integers: Go `int` and `int64` are 64 bits wide (a 64-bit platform); they are
mathematical integers here, wrapped explicitly where the code multiplies.
-/

namespace KamailioExporter

set_option maxRecDepth 4000

/-! ## Data model -/

/-- A non-nil Go error value, identified by the text of its Error method. -/
structure GoError where
  text : String
deriving DecidableEq, Repr

/-- The flag values read through the cli context, one field per flag of `main`. -/
structure Context where
  debug : Bool
  socketPath : String
  host : String
  port : Int
  bindIp : String
  bindPort : Int
  metricsPath : String
  gatewayHost : String
  gatewayPort : Int
  pushInterval : Int
deriving DecidableEq, Repr

/-- The flag defaults declared in `main`. -/
def defaultContext : Context :=
  { debug := false
    socketPath := "/var/run/kamailio/kamailio_ctl"
    host := ""
    port := 3012
    bindIp := "0.0.0.0"
    bindPort := 9494
    metricsPath := "/metrics"
    gatewayHost := "127.0.0.1"
    gatewayPort := 9091
    pushInterval := 0 }

/-- Modelled from the spec: the collector capability (the type StatsCollector
and its constructor NewStatsCollector) is code of this repository that is not in
main.go.  The spec treats the handle as an opaque reference to one producer of
metric samples; it is a bare identity here. -/
structure StatsCollector where
  id : Nat
deriving DecidableEq, Repr

/-- The collectors a prometheus registry can hold in this program: the two the
client library registers in the default registry by itself (process and Go
runtime collector) and the stats collector of this repository. -/
inductive Collector where
  | processCollector
  | goCollector
  | stats (c : StatsCollector)
deriving DecidableEq, Repr

/-- The pusher built by `push.New`: destination, job name, the collectors of its
own registry and its grouping labels. -/
structure Pusher where
  url : String
  job : String
  collectors : List Collector
  grouping : List (String × String)
deriving DecidableEq, Repr

/-- The handlers on the default mux: the two `appAction` installs (the closure
writing the informational page, and `promhttp.Handler().ServeHTTP`, which
gathers from the default registry) and those a package init installed before
`main`, named by their package. -/
inductive Handler where
  | infoPage (body : String)
  | promhttp
  | preset (package : String)
deriving DecidableEq, Repr

/-- One call made by the program, in source order.  `add` also records the
pusher it is called on and what the call returned. -/
inductive Event where
  | logInfo (msg : String)
  | logDebug (msg : String)
  | setLevelDebug
  | logWithError (err : GoError) (msg : String)
  | logErrorf (msg : String)
  | newStatsCollector
  | mustRegister (c : Collector)
  | goFunc
  | pushNew (url : String) (job : String)
  | clientCollector (c : Collector)
  | osHostname
  | clientGrouping (name : String) (value : String)
  | add (client : Pusher) (result : Option GoError)
  | osExit (code : Int)
  | sleep (nanoseconds : Int)
  | handleFunc (pattern : String) (h : Handler)
  | listenAndServe (addr : String)
deriving DecidableEq, Repr

/-- The answers of everything `appAction` calls and does not define.
`newStatsCollector` is the absent constructor of this repository, taken as a
parameter; `hostname` is the pair returned by `os.Hostname`; `pushResult k` is
what the k-th call of `client.Add` returns (none for nil); `listenResult` is
what `http.ListenAndServe` returns, none when it keeps serving; `muxAtStart`
is the content of `http.DefaultServeMux` when `appAction` is entered, that is
the routes registered by the init functions of the linked packages. -/
structure World where
  muxAtStart : List (String × Handler)
  newStatsCollector : Context → Except GoError StatsCollector
  hostname : String × Option GoError
  pushResult : Nat → Option GoError
  listenResult : String → Option GoError

/-! ## Library operations used by `appAction` -/

/-- The default registry at process start: the client library registers a
process collector and a Go collector in it before `main` runs. -/
def defaultRegistry : List Collector :=
  [Collector.processCollector, Collector.goCollector]

/-- The function `prometheus.MustRegister` on a registry: panics when the
collector is registered already, else adds it. -/
def mustRegister (reg : List Collector) (c : Collector) : Except String (List Collector) :=
  if c ∈ reg then Except.error "duplicate metrics collector registration attempted"
  else Except.ok (reg ++ [c])

/-- The function `http.HandleFunc` on the default mux (`ServeMux.Handle`):
panics on the empty pattern and on a pattern that is registered already, else
adds the route. -/
def handleFunc (mux : List (String × Handler)) (pattern : String) (h : Handler) :
    Except String (List (String × Handler)) :=
  if pattern = "" then Except.error "http: invalid pattern"
  else if pattern ∈ mux.map Prod.fst then
    Except.error ("http: multiple registrations for " ++ pattern)
  else Except.ok (mux ++ [(pattern, h)])

/-- The function `push.New`: a pusher with a fresh registry of its own and no
grouping label. -/
def pushNew (url job : String) : Pusher :=
  { url := url, job := job, collectors := [], grouping := [] }

/-- The method `Pusher.Collector`: adds the collector to the pusher's registry. -/
def Pusher.addCollector (p : Pusher) (c : Collector) : Pusher :=
  { p with collectors := p.collectors ++ [c] }

/-- The method `Pusher.Grouping`: sets one grouping label. -/
def Pusher.setGrouping (p : Pusher) (name value : String) : Pusher :=
  { p with grouping := (p.grouping.filter (fun kv => kv.1 ≠ name)) ++ [(name, value)] }

/-- The format `"%s:%d"` of `fmt.Sprintf`. -/
def sprintfAddr (s : String) (d : Int) : String :=
  s ++ ":" ++ toString d

/-- Two's complement wrap-around of a 64-bit signed integer. -/
def wrapInt64 (x : Int) : Int :=
  (x + 2 ^ 63) % 2 ^ 64 - 2 ^ 63

/-- The constant `time.Second`, in nanoseconds. -/
def timeSecond : Int := 1000000000

/-- The expression `time.Duration(pushInterval) * time.Second`: an int64
product, in nanoseconds. -/
def sleepDuration (pushInterval : Int) : Int :=
  wrapInt64 (wrapInt64 pushInterval * timeSecond)

/-- The body the root handler writes, with the metrics path spliced in twice. -/
def rootPage (metricsPath : String) : String :=
  "<html>\n             <head><title>Kamailio Exporter</title></head>\n             <body>\n\t\t\t <p>This is a prometheus metric exporter for Kamailio.</p>\n\t\t\t <p>Browse <a href=\x27"
    ++ metricsPath ++ "\x27>" ++ metricsPath
    ++ "</a> \n\t\t\t to get the metrics.</p>\n             </body>\n             </html>"

/-! ## The push goroutine -/

/-- What is seen of the goroutine: the calls it made and, when it called
`os.Exit`, the exit status (none: the loop is still running when the
observation ends). -/
structure AgentRun where
  trace : List Event
  exited : Option Int
deriving DecidableEq, Repr

/-- The `for` loop of the goroutine, observed for at most `fuel` iterations;
`k` is the number of attempts made before. -/
def pushLoop (w : World) (client : Pusher) (pushAddress : String) (pushInterval : Int) :
    Nat → Nat → AgentRun
  | 0, _ => { trace := [], exited := none }
  | fuel + 1, k =>
    match w.pushResult k with
    | some err =>
      { trace :=
          [Event.add client (some err),
           Event.logErrorf ("Unable to push metrics to " ++ pushAddress ++ ": " ++ err.text),
           Event.osExit 1]
        exited := some 1 }
    | none =>
      let rest := pushLoop w client pushAddress pushInterval fuel (k + 1)
      { trace :=
          [Event.add client none,
           Event.logInfo "Pushed metrics.",
           Event.sleep (sleepDuration pushInterval)] ++ rest.trace
        exited := rest.exited }

/-- The calls that resolve the grouping value, and the value: the `host` flag
when it is not empty, else what `os.Hostname` returns, with the error logged
when there is one. -/
def resolveHost (w : World) (c : Context) : List Event × String :=
  if c.host = "" then
    match w.hostname.2 with
    | some err =>
      ([Event.osHostname, Event.logWithError err "Unable to get hostname."], w.hostname.1)
    | none => ([Event.osHostname], w.hostname.1)
  else ([], c.host)

/-- The pusher as it is when the loop starts. -/
def agentClient (w : World) (c : Context) (collector : StatsCollector) : Pusher :=
  ((pushNew (sprintfAddr c.gatewayHost c.gatewayPort) "kamailio").addCollector
    (Collector.stats collector)).setGrouping "instance" (resolveHost w c).2

/-- The body of the goroutine: builds the pusher, resolves the grouping value,
then loops. -/
def pushAgent (w : World) (c : Context) (collector : StatsCollector) (pushInterval : Int)
    (fuel : Nat) : AgentRun :=
  let pushAddress := sprintfAddr c.gatewayHost c.gatewayPort
  let client := agentClient w c collector
  let loop := pushLoop w client pushAddress pushInterval fuel 0
  { trace :=
      [Event.pushNew pushAddress "kamailio", Event.clientCollector (Collector.stats collector)]
        ++ (resolveHost w c).1
        ++ [Event.clientGrouping "instance" (resolveHost w c).2]
        ++ loop.trace
    exited := loop.exited }

/-! ## The coordinator -/

/-- How `appAction` ends: it returns an error, it stays inside
`http.ListenAndServe`, or a library call panics. -/
inductive Outcome where
  | returned (err : GoError)
  | serving
  | panicked (msg : String)
deriving DecidableEq, Repr

/-- One run of `appAction`: the calls of the main goroutine, the default
registry and the default mux at the end, the goroutine it started (if any) and
the outcome. -/
structure Run where
  trace : List Event
  registry : List Collector
  mux : List (String × Handler)
  agent : Option AgentRun
  outcome : Outcome
deriving DecidableEq, Repr

/-- The calls before the construction of the collector. -/
def startEvents (c : Context) : List Event :=
  Event.logInfo "Starting kamailio exporter" ::
    (if c.debug then [Event.setLevelDebug, Event.logDebug "Debug logging is enabled"] else [])

/-- The part of `appAction` after the `go` statement: the two routes, the log
line and the server. -/
def serve (w : World) (c : Context) (trace : List Event) (registry : List Collector)
    (agent : Option AgentRun) : Run :=
  let metricsPath := c.metricsPath
  let listenAddress := sprintfAddr c.bindIp c.bindPort
  let rootHandler := Handler.infoPage (rootPage metricsPath)
  match handleFunc w.muxAtStart "/" rootHandler with
  | Except.error msg =>
    { trace := trace ++ [Event.handleFunc "/" rootHandler]
      registry := registry, mux := w.muxAtStart, agent := agent
      outcome := Outcome.panicked msg }
  | Except.ok mux1 =>
    match handleFunc mux1 metricsPath Handler.promhttp with
    | Except.error msg =>
      { trace := trace ++ [Event.handleFunc "/" rootHandler,
                           Event.handleFunc metricsPath Handler.promhttp]
        registry := registry, mux := mux1, agent := agent, outcome := Outcome.panicked msg }
    | Except.ok mux2 =>
      { trace := trace ++ [Event.handleFunc "/" rootHandler,
                           Event.handleFunc metricsPath Handler.promhttp,
                           Event.logInfo ("Listening on " ++ listenAddress ++ metricsPath),
                           Event.listenAndServe listenAddress]
        registry := registry, mux := mux2, agent := agent
        outcome :=
          match w.listenResult listenAddress with
          | some err => Outcome.returned err
          | none => Outcome.serving }

/-- The function `appAction`.  The goroutine it starts is observed for `fuel`
iterations of its loop. -/
def appAction (w : World) (c : Context) (fuel : Nat) : Run :=
  match w.newStatsCollector c with
  | Except.error err =>
    { trace := startEvents c ++ [Event.newStatsCollector]
      registry := defaultRegistry, mux := w.muxAtStart, agent := none
      outcome := Outcome.returned err }
  | Except.ok collector =>
    match mustRegister defaultRegistry (Collector.stats collector) with
    | Except.error msg =>
      { trace := startEvents c ++
          [Event.newStatsCollector, Event.mustRegister (Collector.stats collector)]
        registry := defaultRegistry, mux := w.muxAtStart, agent := none
        outcome := Outcome.panicked msg }
    | Except.ok registry =>
      let pushInterval := c.pushInterval
      if 0 < pushInterval then
        serve w c
          (startEvents c ++
            [Event.newStatsCollector, Event.mustRegister (Collector.stats collector),
             Event.goFunc])
          registry (some (pushAgent w c collector pushInterval fuel))
      else
        serve w c
          (startEvents c ++
            [Event.newStatsCollector, Event.mustRegister (Collector.stats collector)])
          registry none

/-! ## Vocabulary of the properties -/

/-- The events of `n` successful iterations of the push loop: each is one
attempt, the log line and one sleep. -/
def successRounds (client : Pusher) (pushInterval : Int) (n : Nat) : List Event :=
  (List.replicate n
    [Event.add client none, Event.logInfo "Pushed metrics.",
     Event.sleep (sleepDuration pushInterval)]).flatten

/-- The calls of the goroutine before its loop. -/
def agentSetup (w : World) (c : Context) (collector : StatsCollector) : List Event :=
  [Event.pushNew (sprintfAddr c.gatewayHost c.gatewayPort) "kamailio",
   Event.clientCollector (Collector.stats collector)]
    ++ (resolveHost w c).1 ++ [Event.clientGrouping "instance" (resolveHost w c).2]

/-- Is the event a call of `client.Add`? -/
def Event.isAdd : Event → Bool
  | Event.add _ _ => true
  | _ => false

/-- Is the event a call of `client.Add` that returned nil? -/
def Event.isAddOk : Event → Bool
  | Event.add _ none => true
  | _ => false

/-- Is the event a call of `time.Sleep`? -/
def Event.isSleep : Event → Bool
  | Event.sleep _ => true
  | _ => false

/-- Is the event a call of `prometheus.MustRegister`? -/
def Event.isRegister : Event → Bool
  | Event.mustRegister _ => true
  | _ => false

/-- Is the event a call of `http.HandleFunc`? -/
def Event.isHandleFunc : Event → Bool
  | Event.handleFunc _ _ => true
  | _ => false

/-- Is the event a call of `http.ListenAndServe`? -/
def Event.isListen : Event → Bool
  | Event.listenAndServe _ => true
  | _ => false

/-- Is the event part of push activity: the `go` statement, the construction
or configuration of a push client, a push attempt or a sleep? -/
def Event.isPush : Event → Bool
  | Event.goFunc => true
  | Event.pushNew _ _ => true
  | Event.clientCollector _ => true
  | Event.clientGrouping _ _ => true
  | Event.add _ _ => true
  | Event.sleep _ => true
  | _ => false

/-- No push activity in a run: no goroutine was started and the main goroutine
made no push call. -/
def NoPushActivity (r : Run) : Prop :=
  r.agent = none ∧ ∀ e ∈ r.trace, e.isPush = false

/-- Both routes are registered and the server listens: the mux holds what it
held on entry and, added to it, exactly the root route with the informational
page and the metrics route with the metrics handler, and
`http.ListenAndServe` was called on the bind address. -/
def ServesTwoRoutes (w : World) (c : Context) (r : Run) : Prop :=
  r.mux = w.muxAtStart ++
      [("/", Handler.infoPage (rootPage c.metricsPath)), (c.metricsPath, Handler.promhttp)]
    ∧ Event.listenAndServe (sprintfAddr c.bindIp c.bindPort) ∈ r.trace

instance (r : Run) : Decidable (NoPushActivity r) := by
  unfold NoPushActivity; infer_instance

instance (w : World) (c : Context) (r : Run) : Decidable (ServesTwoRoutes w c r) := by
  unfold ServesTwoRoutes; infer_instance

/-- The collectors a push attempt of this pusher gathers: those of the
pusher's own registry. -/
def pushGathered (p : Pusher) : List Collector := p.collectors

/-- The collectors a scrape of the metrics path gathers after this run: those
of the default registry, which `promhttp.Handler` reads. -/
def scrapeGathered (r : Run) : List Collector := r.registry

/-! ## Sample worlds and configurations -/

/-- A world in which the default mux holds the route the expvar package
registers in its init (expvar is linked through the prometheus client
package), construction succeeds, the host name resolves, the first two pushes
succeed and the third fails. -/
def sampleWorld : World :=
  { muxAtStart := [("/debug/vars", Handler.preset "expvar")]
    newStatsCollector := fun _ => Except.ok { id := 7 }
    hostname := ("sip1", none)
    pushResult := fun k => if k < 2 then none else some { text := "connection refused" }
    listenResult := fun _ => none }

/-- A world in which the construction of the collector fails. -/
def brokenWorld : World :=
  { sampleWorld with newStatsCollector := fun _ => Except.error { text := "no such socket" } }

/-- A world in which the host name cannot be resolved. -/
def namelessWorld : World :=
  { sampleWorld with hostname := ("", some { text := "uname failed" }) }

/-! ## Lemmas on the push loop -/

theorem successRounds_succ (client : Pusher) (pushInterval : Int) (n : Nat) :
    successRounds client pushInterval (n + 1) =
      [Event.add client none, Event.logInfo "Pushed metrics.",
       Event.sleep (sleepDuration pushInterval)] ++ successRounds client pushInterval n := by
  simp [successRounds, List.replicate_succ]

theorem pushLoop_zero (w : World) (client : Pusher) (addr : String) (i : Int) (k : Nat) :
    pushLoop w client addr i 0 k = { trace := [], exited := none } := rfl

theorem pushLoop_ok (w : World) (client : Pusher) (addr : String) (i : Int) (fuel k : Nat)
    (h : w.pushResult k = none) :
    pushLoop w client addr i (fuel + 1) k =
      { trace := [Event.add client none, Event.logInfo "Pushed metrics.",
                  Event.sleep (sleepDuration i)] ++ (pushLoop w client addr i fuel (k + 1)).trace
        exited := (pushLoop w client addr i fuel (k + 1)).exited } := by
  simp [pushLoop, h]

theorem pushLoop_fail (w : World) (client : Pusher) (addr : String) (i : Int) (fuel k : Nat)
    (err : GoError) (h : w.pushResult k = some err) :
    pushLoop w client addr i (fuel + 1) k =
      { trace := [Event.add client (some err),
                  Event.logErrorf ("Unable to push metrics to " ++ addr ++ ": " ++ err.text),
                  Event.osExit 1]
        exited := some 1 } := by
  simp [pushLoop, h]

/-- After `n` successes from attempt `k` on, the loop has produced `n` full
rounds and goes on from attempt `k + n`. -/
theorem pushLoop_rounds (w : World) (client : Pusher) (addr : String) (i : Int) :
    ∀ (n fuel k : Nat), (∀ j, j < n → w.pushResult (k + j) = none) →
      pushLoop w client addr i (n + fuel) k =
        { trace := successRounds client i n ++ (pushLoop w client addr i fuel (k + n)).trace
          exited := (pushLoop w client addr i fuel (k + n)).exited } := by
  intro n
  induction n with
  | zero => intro fuel k _; simp [successRounds]
  | succ n ih =>
    intro fuel k h
    have h0 : w.pushResult k = none := by simpa using h 0 (Nat.succ_pos n)
    have hrest : ∀ j, j < n → w.pushResult (k + 1 + j) = none := by
      intro j hj
      have := h (j + 1) (Nat.succ_lt_succ hj)
      simpa [Nat.add_assoc, Nat.add_comm 1 j] using this
    have e : n + 1 + fuel = (n + fuel) + 1 := by omega
    rw [e, pushLoop_ok w client addr i (n + fuel) k h0, ih fuel (k + 1) hrest,
      successRounds_succ]
    have e2 : k + 1 + n = k + (n + 1) := by omega
    simp [e2]

/-- Every sleep of the loop lasts `sleepDuration` of the interval and every
attempt is made on the client the loop was started with. -/
theorem pushLoop_events (w : World) (client : Pusher) (addr : String) (i : Int) :
    ∀ (fuel k : Nat) (e : Event), e ∈ (pushLoop w client addr i fuel k).trace →
      (∀ d, e = Event.sleep d → d = sleepDuration i) ∧
      (∀ p r, e = Event.add p r → p = client) := by
  intro fuel
  induction fuel with
  | zero => intro k e he; simp [pushLoop] at he
  | succ fuel ih =>
    intro k e he
    cases hres : w.pushResult k with
    | some err =>
      rw [pushLoop_fail w client addr i fuel k err hres] at he
      simp at he
      rcases he with rfl | rfl | rfl <;> simp
    | none =>
      rw [pushLoop_ok w client addr i fuel k hres] at he
      simp at he
      rcases he with rfl | rfl | rfl | he
      · simp
      · simp
      · simp
      · exact ih (k + 1) e he

/-- In the loop's trace, sleeps, completion logs and successful attempts are
equally many. -/
theorem pushLoop_counts (w : World) (client : Pusher) (addr : String) (i : Int) :
    ∀ (fuel k : Nat),
      (pushLoop w client addr i fuel k).trace.countP Event.isSleep =
        (pushLoop w client addr i fuel k).trace.countP Event.isAddOk ∧
      (pushLoop w client addr i fuel k).trace.count (Event.logInfo "Pushed metrics.") =
        (pushLoop w client addr i fuel k).trace.countP Event.isAddOk := by
  intro fuel
  induction fuel with
  | zero => intro k; simp [pushLoop]
  | succ fuel ih =>
    intro k
    cases hres : w.pushResult k with
    | some err =>
      rw [pushLoop_fail w client addr i fuel k err hres]
      simp [List.countP_cons, List.count_cons, Event.isSleep, Event.isAddOk]
    | none =>
      rw [pushLoop_ok w client addr i fuel k hres]
      obtain ⟨h1, h2⟩ := ih (k + 1)
      simp [List.countP_cons, List.count_cons, Event.isSleep, Event.isAddOk, h1, h2]

/-- The calls before the loop contain no attempt, no sleep and no completion
log. -/
theorem agentSetup_quiet (w : World) (c : Context) (collector : StatsCollector) :
    ∀ e ∈ agentSetup w c collector,
      e.isAdd = false ∧ e.isSleep = false ∧ e.isAddOk = false ∧
        e ≠ Event.logInfo "Pushed metrics." := by
  intro e he
  unfold agentSetup resolveHost at he
  split at he
  · split at he <;> simp at he <;> rcases he with rfl | rfl | rfl | rfl | rfl <;>
      simp [Event.isAdd, Event.isSleep, Event.isAddOk]
  · simp at he
    rcases he with rfl | rfl | rfl <;> simp [Event.isAdd, Event.isSleep, Event.isAddOk]

theorem pushAgent_trace (w : World) (c : Context) (collector : StatsCollector) (i : Int)
    (fuel : Nat) :
    (pushAgent w c collector i fuel).trace =
      agentSetup w c collector ++
        (pushLoop w (agentClient w c collector) (sprintfAddr c.gatewayHost c.gatewayPort) i
          fuel 0).trace := by
  simp [pushAgent, agentSetup]

theorem pushAgent_exited (w : World) (c : Context) (collector : StatsCollector) (i : Int)
    (fuel : Nat) :
    (pushAgent w c collector i fuel).exited =
      (pushLoop w (agentClient w c collector) (sprintfAddr c.gatewayHost c.gatewayPort) i
        fuel 0).exited := by
  simp [pushAgent]

theorem wrapInt64_of_range (x : Int) (hlo : -9223372036854775808 ≤ x)
    (hhi : x ≤ 9223372036854775807) : wrapInt64 x = x := by
  unfold wrapInt64
  norm_num
  omega

/-! ## The push loop: fatal failure, cadence, rounds -/

/-- C2: when the first failing push is attempt number n (counted from 0), the
goroutine, observed for any number of iterations above n, has made its set-up
calls, n full successful rounds, the failing attempt, one error log naming the
destination address and the cause, and `os.Exit(1)`, in this order and nothing
after: no further attempt, no completion log, no sleep. -/
theorem c2_first_failure_is_fatal (w : World) (c : Context) (collector : StatsCollector)
    (i : Int) (n m : Nat) (err : GoError)
    (hok : ∀ j, j < n → w.pushResult j = none) (hfail : w.pushResult n = some err) :
    pushAgent w c collector i (n + 1 + m) =
      { trace :=
          agentSetup w c collector ++ successRounds (agentClient w c collector) i n ++
            [Event.add (agentClient w c collector) (some err),
             Event.logErrorf
               ("Unable to push metrics to " ++ sprintfAddr c.gatewayHost c.gatewayPort ++ ": "
                 ++ err.text),
             Event.osExit 1]
        exited := some 1 } := by
  have hok0 : ∀ j, j < n → w.pushResult (0 + j) = none := by
    intro j hj; simpa using hok j hj
  have hfail0 : w.pushResult (0 + n) = some err := by simpa using hfail
  have e : n + 1 + m = n + (m + 1) := by omega
  have hl := pushLoop_rounds w (agentClient w c collector)
    (sprintfAddr c.gatewayHost c.gatewayPort) i n (m + 1) 0 hok0
  rw [pushLoop_fail w (agentClient w c collector) (sprintfAddr c.gatewayHost c.gatewayPort)
    i m (0 + n) err hfail0] at hl
  have ht := pushAgent_trace w c collector i (n + 1 + m)
  have hx := pushAgent_exited w c collector i (n + 1 + m)
  rw [e, hl] at ht hx
  rw [e]
  cases hp : pushAgent w c collector i (n + (m + 1)) with
  | mk t x =>
    rw [hp] at ht hx
    simp at ht hx
    simp [ht, hx]

/-- Witness of C2: two successes, then connection refused. -/
theorem c2_first_failure_is_fatal_witness :
    pushAgent sampleWorld defaultContext { id := 7 } 5 (2 + 1 + 4) =
      { trace :=
          agentSetup sampleWorld defaultContext { id := 7 } ++
            successRounds (agentClient sampleWorld defaultContext { id := 7 }) 5 2 ++
            [Event.add (agentClient sampleWorld defaultContext { id := 7 })
               (some { text := "connection refused" }),
             Event.logErrorf
               ("Unable to push metrics to " ++
                 sprintfAddr defaultContext.gatewayHost defaultContext.gatewayPort ++ ": "
                 ++ (GoError.mk "connection refused").text),
             Event.osExit 1]
        exited := some 1 } :=
  c2_first_failure_is_fatal sampleWorld defaultContext { id := 7 } 5 2 4
    { text := "connection refused" } (by decide) (by decide)

/-- C3: the claim asks that the loop sleeps I seconds for every positive
interval I, which is what the flag (an interval in seconds) is for.  The code
does not: for the interval 9223372037 the int64 product
`time.Duration(9223372037) * time.Second` wraps to -9223372036709551616
nanoseconds, which is neither 9223372037 * 10^9 nor at least 9223372037
seconds, and this negative duration is what the loop started by `appAction`
passes to `time.Sleep` after its push. -/
theorem c3_sleep_overflows :
    (0 : Int) < 9223372037 ∧
    sleepDuration 9223372037 = -9223372036709551616 ∧
    sleepDuration 9223372037 ≠ 9223372037 * 10 ^ 9 ∧
    ¬ (9223372037 * timeSecond ≤ sleepDuration 9223372037) ∧
    (appAction sampleWorld { defaultContext with pushInterval := 9223372037 } 1).agent.map
        AgentRun.trace =
      some
        (agentSetup sampleWorld defaultContext { id := 7 } ++
          [Event.add (agentClient sampleWorld defaultContext { id := 7 }) none,
           Event.logInfo "Pushed metrics.",
           Event.sleep (-9223372036709551616)]) := by
  decide

/-- Below the overflow, for every interval from 1 to 9223372036, the product is
exact: the duration is the interval times 10^9 nanoseconds, and this is what
every sleep of the push loop lasts. -/
theorem sleepDuration_exact_in_range (i : Int) (hpos : 0 < i) (hmax : i ≤ 9223372036) :
    sleepDuration i = i * 1000000000 ∧
    i * timeSecond ≤ sleepDuration i ∧
    ∀ (w : World) (client : Pusher) (addr : String) (fuel k : Nat) (d : Int),
      Event.sleep d ∈ (pushLoop w client addr i fuel k).trace → d = i * 1000000000 := by
  have h1 : wrapInt64 i = i := wrapInt64_of_range i (by omega) (by omega)
  have h2 : sleepDuration i = i * 1000000000 := by
    unfold sleepDuration timeSecond
    rw [h1]
    exact wrapInt64_of_range _ (by omega) (by omega)
  refine ⟨h2, ?_, ?_⟩
  · rw [h2]; simp [timeSecond]
  · intro w client addr fuel k d hd
    rw [← h2]
    exact (pushLoop_events w client addr i fuel k _ hd).1 d rfl

/-- C10: when the first n push results are successes, the trace of the
goroutine, observed for more than n iterations, is its set-up calls (which hold
no attempt and no sleep), then exactly n rounds of one attempt, the log
"Pushed metrics." and one sleep of the configured interval, then attempt
n + 1.  For every observation, the sleeps and the completion logs are as many
as the successful attempts, every sleep lasts `sleepDuration` of the interval
and every attempt is made on the same client, whose destination is the
configured gateway address. -/
theorem c10_loop_rounds (w : World) (c : Context) (collector : StatsCollector) (i : Int)
    (n m : Nat) (hok : ∀ j, j < n → w.pushResult j = none) :
    (∃ rest, (pushAgent w c collector i (n + 1 + m)).trace =
        agentSetup w c collector ++
          (List.replicate n
            [Event.add (agentClient w c collector) none, Event.logInfo "Pushed metrics.",
             Event.sleep (sleepDuration i)]).flatten ++
          Event.add (agentClient w c collector) (w.pushResult n) :: rest) ∧
    (∀ e ∈ agentSetup w c collector, e.isAdd = false ∧ e.isSleep = false) ∧
    (∀ fuel,
      (pushAgent w c collector i fuel).trace.countP Event.isSleep =
        (pushAgent w c collector i fuel).trace.countP Event.isAddOk ∧
      (pushAgent w c collector i fuel).trace.count (Event.logInfo "Pushed metrics.") =
        (pushAgent w c collector i fuel).trace.countP Event.isAddOk) ∧
    (∀ fuel e, e ∈ (pushAgent w c collector i fuel).trace →
      (∀ d, e = Event.sleep d → d = sleepDuration i) ∧
      (∀ p r, e = Event.add p r →
        p = agentClient w c collector ∧ p.url = sprintfAddr c.gatewayHost c.gatewayPort)) := by
  refine ⟨?_, ?_, ?_, ?_⟩
  · have hok0 : ∀ j, j < n → w.pushResult (0 + j) = none := by
      intro j hj; simpa using hok j hj
    have e : n + 1 + m = n + (m + 1) := by omega
    have hl := pushLoop_rounds w (agentClient w c collector)
      (sprintfAddr c.gatewayHost c.gatewayPort) i n (m + 1) 0 hok0
    rw [pushAgent_trace, e, hl]
    cases hres : w.pushResult n with
    | some err =>
      have hres0 : w.pushResult (0 + n) = some err := by simpa using hres
      rw [pushLoop_fail _ _ _ _ _ _ err hres0]
      exact ⟨[Event.logErrorf
                ("Unable to push metrics to " ++ sprintfAddr c.gatewayHost c.gatewayPort ++ ": "
                  ++ err.text),
              Event.osExit 1], by simp [successRounds]⟩
    | none =>
      have hres0 : w.pushResult (0 + n) = none := by simpa using hres
      rw [pushLoop_ok _ _ _ _ _ _ hres0]
      exact ⟨Event.logInfo "Pushed metrics." :: Event.sleep (sleepDuration i) ::
              (pushLoop w (agentClient w c collector) (sprintfAddr c.gatewayHost c.gatewayPort)
                i m (0 + n + 1)).trace, by simp [successRounds]⟩
  · intro e he
    exact ⟨(agentSetup_quiet w c collector e he).1, (agentSetup_quiet w c collector e he).2.1⟩
  · intro fuel
    have hq := agentSetup_quiet w c collector
    have hs : (agentSetup w c collector).countP Event.isSleep = 0 := by
      rw [List.countP_eq_zero]; intro e he; simp [(hq e he).2.1]
    have ha : (agentSetup w c collector).countP Event.isAddOk = 0 := by
      rw [List.countP_eq_zero]; intro e he; simp [(hq e he).2.2.1]
    have hg : (agentSetup w c collector).count (Event.logInfo "Pushed metrics.") = 0 := by
      rw [List.count_eq_zero]; intro he; exact (hq _ he).2.2.2 rfl
    obtain ⟨h1, h2⟩ := pushLoop_counts w (agentClient w c collector)
      (sprintfAddr c.gatewayHost c.gatewayPort) i fuel 0
    rw [pushAgent_trace]
    simp [List.countP_append, List.count_append, hs, ha, hg, h1, h2]
  · intro fuel e he
    rw [pushAgent_trace, List.mem_append] at he
    rcases he with he | he
    · have hq := agentSetup_quiet w c collector e he
      constructor
      · intro d hd; rw [hd] at hq; simp [Event.isSleep] at hq
      · intro p r hp; rw [hp] at hq; simp [Event.isAdd] at hq
    · have hev := pushLoop_events w (agentClient w c collector)
        (sprintfAddr c.gatewayHost c.gatewayPort) i fuel 0 e he
      refine ⟨hev.1, ?_⟩
      intro p r hp
      have := hev.2 p r hp
      subst this
      exact ⟨rfl, by simp [agentClient, Pusher.setGrouping, Pusher.addCollector, pushNew]⟩

/-- Witness of C10: two successes in the sample world. -/
theorem c10_loop_rounds_witness :
    (∃ rest, (pushAgent sampleWorld defaultContext { id := 7 } 5 (2 + 1 + 0)).trace =
        agentSetup sampleWorld defaultContext { id := 7 } ++
          (List.replicate 2
            [Event.add (agentClient sampleWorld defaultContext { id := 7 }) none,
             Event.logInfo "Pushed metrics.",
             Event.sleep (sleepDuration 5)]).flatten ++
          Event.add (agentClient sampleWorld defaultContext { id := 7 })
            (sampleWorld.pushResult 2) :: rest) :=
  (c10_loop_rounds sampleWorld defaultContext { id := 7 } 5 2 0 (by decide)).1

/-! ## Lemmas on the coordinator -/

theorem mustRegister_stats (col : StatsCollector) :
    mustRegister defaultRegistry (Collector.stats col) =
      Except.ok (defaultRegistry ++ [Collector.stats col]) := by
  simp [mustRegister, defaultRegistry]

theorem handleFunc_fresh (mux : List (String × Handler)) (pattern : String) (h : Handler)
    (h1 : pattern ≠ "") (h2 : pattern ∉ mux.map Prod.fst) :
    handleFunc mux pattern h = Except.ok (mux ++ [(pattern, h)]) := by
  unfold handleFunc
  rw [if_neg h1, if_neg h2]

theorem serve_ok (w : World) (c : Context) (t : List Event) (reg : List Collector)
    (agent : Option AgentRun) (h1 : c.metricsPath ≠ "") (h2 : c.metricsPath ≠ "/")
    (h3 : "/" ∉ w.muxAtStart.map Prod.fst) (h4 : c.metricsPath ∉ w.muxAtStart.map Prod.fst) :
    serve w c t reg agent =
      { trace := t ++ [Event.handleFunc "/" (Handler.infoPage (rootPage c.metricsPath)),
                       Event.handleFunc c.metricsPath Handler.promhttp,
                       Event.logInfo
                         ("Listening on " ++ sprintfAddr c.bindIp c.bindPort ++ c.metricsPath),
                       Event.listenAndServe (sprintfAddr c.bindIp c.bindPort)]
        registry := reg
        mux := w.muxAtStart ++
          [("/", Handler.infoPage (rootPage c.metricsPath)), (c.metricsPath, Handler.promhttp)]
        agent := agent
        outcome :=
          match w.listenResult (sprintfAddr c.bindIp c.bindPort) with
          | some err => Outcome.returned err
          | none => Outcome.serving } := by
  have hm : c.metricsPath ∉
      (w.muxAtStart ++ [("/", Handler.infoPage (rootPage c.metricsPath))]).map Prod.fst := by
    simp only [List.map_append, List.map_cons, List.map_nil, List.mem_append,
      List.mem_singleton]
    intro h
    rcases h with h | h
    · exact h4 h
    · exact h2 h
  unfold serve
  simp only [handleFunc_fresh w.muxAtStart "/" _ (by decide) h3,
    handleFunc_fresh _ c.metricsPath _ h1 hm]
  simp

theorem serve_frame (w : World) (c : Context) (t : List Event) (reg : List Collector)
    (agent : Option AgentRun) :
    (serve w c t reg agent).registry = reg ∧ (serve w c t reg agent).agent = agent ∧
    ∃ rest, (serve w c t reg agent).trace = t ++ rest ∧
      ∀ e ∈ rest, e.isRegister = false ∧ e.isPush = false := by
  unfold serve
  dsimp only
  cases handleFunc w.muxAtStart "/" (Handler.infoPage (rootPage c.metricsPath)) with
  | error msg =>
    refine ⟨rfl, rfl, _, rfl, ?_⟩
    intro e he
    simp at he
    subst he
    simp [Event.isRegister, Event.isPush]
  | ok mux1 =>
    dsimp only
    cases handleFunc mux1 c.metricsPath Handler.promhttp with
    | error msg =>
      refine ⟨rfl, rfl, _, rfl, ?_⟩
      intro e he
      simp at he
      rcases he with rfl | rfl <;> simp [Event.isRegister, Event.isPush]
    | ok mux2 =>
      refine ⟨rfl, rfl, _, rfl, ?_⟩
      intro e he
      simp at he
      rcases he with rfl | rfl | rfl | rfl <;> simp [Event.isRegister, Event.isPush]

theorem startEvents_quiet (c : Context) :
    ∀ e ∈ startEvents c,
      e.isRegister = false ∧ e.isPush = false ∧ e.isHandleFunc = false ∧
        e.isListen = false := by
  intro e he
  unfold startEvents at he
  split at he <;> simp at he
  · rcases he with rfl | rfl | rfl <;>
      simp [Event.isRegister, Event.isPush, Event.isHandleFunc, Event.isListen]
  · subst he
    simp [Event.isRegister, Event.isPush, Event.isHandleFunc, Event.isListen]

/-- The shape of a run in which construction succeeds. -/
theorem appAction_ok (w : World) (c : Context) (fuel : Nat) (col : StatsCollector)
    (hc : w.newStatsCollector c = Except.ok col) :
    appAction w c fuel =
      if 0 < c.pushInterval then
        serve w c
          (startEvents c ++
            [Event.newStatsCollector, Event.mustRegister (Collector.stats col), Event.goFunc])
          (defaultRegistry ++ [Collector.stats col]) (some (pushAgent w c col c.pushInterval fuel))
      else
        serve w c
          (startEvents c ++
            [Event.newStatsCollector, Event.mustRegister (Collector.stats col)])
          (defaultRegistry ++ [Collector.stats col]) none := by
  simp [appAction, hc, mustRegister_stats]

/-- The shape of a run in which construction fails. -/
theorem appAction_error (w : World) (c : Context) (fuel : Nat) (err : GoError)
    (hc : w.newStatsCollector c = Except.error err) :
    appAction w c fuel =
      { trace := startEvents c ++ [Event.newStatsCollector]
        registry := defaultRegistry, mux := w.muxAtStart, agent := none
        outcome := Outcome.returned err } := by
  simp [appAction, hc]

/-- The loop makes no call that configures the client or resolves the grouping
value. -/
theorem pushLoop_no_setup (w : World) (client : Pusher) (addr : String) (i : Int) :
    ∀ (fuel k : Nat) (e : Event), e ∈ (pushLoop w client addr i fuel k).trace →
      e ≠ Event.osHostname ∧ (∀ name value, e ≠ Event.clientGrouping name value) ∧
        ∀ x, e ≠ Event.clientCollector x := by
  intro fuel
  induction fuel with
  | zero => intro k e he; simp [pushLoop] at he
  | succ fuel ih =>
    intro k e he
    cases hres : w.pushResult k with
    | some err =>
      rw [pushLoop_fail w client addr i fuel k err hres] at he
      simp at he
      rcases he with rfl | rfl | rfl <;> simp
    | none =>
      rw [pushLoop_ok w client addr i fuel k hres] at he
      simp at he
      rcases he with rfl | rfl | rfl | he
      · simp
      · simp
      · simp
      · exact ih (k + 1) e he

/-- With fuel left, the loop starts with an attempt. -/
theorem pushLoop_first (w : World) (client : Pusher) (addr : String) (i : Int) (fuel : Nat) :
    ∃ rest, (pushLoop w client addr i (fuel + 1) 0).trace =
      Event.add client (w.pushResult 0) :: rest := by
  cases hres : w.pushResult 0 with
  | some err => rw [pushLoop_fail w client addr i fuel 0 err hres]; exact ⟨_, rfl⟩
  | none => rw [pushLoop_ok w client addr i fuel 0 hres]; exact ⟨_, rfl⟩

/-- The goroutine names no collector but the one it was given. -/
theorem pushAgent_collector (w : World) (c : Context) (col : StatsCollector) (i : Int)
    (fuel : Nat) :
    (∀ x, Event.clientCollector x ∈ (pushAgent w c col i fuel).trace →
      x = Collector.stats col) ∧
    (∀ p r, Event.add p r ∈ (pushAgent w c col i fuel).trace →
      p.collectors = [Collector.stats col]) := by
  constructor
  · intro x hx
    rw [pushAgent_trace, List.mem_append] at hx
    rcases hx with hx | hx
    · unfold agentSetup resolveHost at hx
      split at hx
      · split at hx <;> simp at hx <;> exact hx
      · simp at hx; exact hx
    · exact absurd rfl ((pushLoop_no_setup w _ _ _ fuel 0 _ hx).2.2 x)
  · intro p r hp
    rw [pushAgent_trace, List.mem_append] at hp
    rcases hp with hp | hp
    · have hq := agentSetup_quiet w c col _ hp
      simp [Event.isAdd] at hq
    · have := (pushLoop_events w _ _ _ fuel 0 _ hp).2 p r rfl
      subst this
      simp [agentClient, Pusher.setGrouping, Pusher.addCollector, pushNew]

/-- A run in which construction succeeds: the trace up to the registration, the
registry and the goroutine. -/
theorem appAction_ok_frame (w : World) (c : Context) (fuel : Nat) (col : StatsCollector)
    (hc : w.newStatsCollector c = Except.ok col) :
    (∃ rest, (appAction w c fuel).trace =
        startEvents c ++
          [Event.newStatsCollector, Event.mustRegister (Collector.stats col)] ++ rest ∧
      ∀ e ∈ rest, e.isRegister = false) ∧
    (appAction w c fuel).registry = defaultRegistry ++ [Collector.stats col] ∧
    ((appAction w c fuel).agent = none ∨
      (appAction w c fuel).agent = some (pushAgent w c col c.pushInterval fuel)) := by
  rw [appAction_ok w c fuel col hc]
  split
  · obtain ⟨hr, ha, rest, ht, hrest⟩ := serve_frame w c
      (startEvents c ++
        [Event.newStatsCollector, Event.mustRegister (Collector.stats col), Event.goFunc])
      (defaultRegistry ++ [Collector.stats col])
      (some (pushAgent w c col c.pushInterval fuel))
    refine ⟨⟨Event.goFunc :: rest, ?_, ?_⟩, hr, Or.inr ha⟩
    · rw [ht]; simp
    · intro e he
      simp only [List.mem_cons] at he
      rcases he with rfl | he
      · rfl
      · exact (hrest e he).1
  · obtain ⟨hr, ha, rest, ht, hrest⟩ := serve_frame w c
      (startEvents c ++
        [Event.newStatsCollector, Event.mustRegister (Collector.stats col)])
      (defaultRegistry ++ [Collector.stats col]) none
    exact ⟨⟨rest, by rw [ht], fun e he => (hrest e he).1⟩, hr, Or.inl ha⟩

/-! ## Start-up: construction failure, registration, routes -/

/-- C5: when `NewStatsCollector` fails, `appAction` returns exactly that error;
the default registry is as it was and `MustRegister` was not called, no
goroutine was started and no push call made, the default mux is as it was on
entry and neither `HandleFunc` nor `ListenAndServe` was called.  This holds for every
pushInterval. -/
theorem c5_construction_failure_aborts (w : World) (c : Context) (fuel : Nat) (err : GoError)
    (hc : w.newStatsCollector c = Except.error err) :
    (appAction w c fuel).outcome = Outcome.returned err ∧
    (appAction w c fuel).registry = defaultRegistry ∧
    (appAction w c fuel).agent = none ∧
    (appAction w c fuel).mux = w.muxAtStart ∧
    ∀ e ∈ (appAction w c fuel).trace,
      e.isRegister = false ∧ e.isPush = false ∧ e.isHandleFunc = false ∧
        e.isListen = false := by
  rw [appAction_error w c fuel err hc]
  refine ⟨rfl, rfl, rfl, rfl, ?_⟩
  intro e he
  simp only [List.mem_append, List.mem_singleton] at he
  rcases he with he | rfl
  · exact startEvents_quiet c e he
  · simp [Event.isRegister, Event.isPush, Event.isHandleFunc, Event.isListen]

/-- Witness of C5: the socket is missing and pushing is configured. -/
theorem c5_construction_failure_aborts_witness :
    (appAction brokenWorld { defaultContext with pushInterval := 5 } 3).outcome =
      Outcome.returned { text := "no such socket" } ∧
    (appAction brokenWorld { defaultContext with pushInterval := 5 } 3).registry =
      defaultRegistry ∧
    (appAction brokenWorld { defaultContext with pushInterval := 5 } 3).agent = none ∧
    (appAction brokenWorld { defaultContext with pushInterval := 5 } 3).mux =
      brokenWorld.muxAtStart ∧
    ∀ e ∈ (appAction brokenWorld { defaultContext with pushInterval := 5 } 3).trace,
      e.isRegister = false ∧ e.isPush = false ∧ e.isHandleFunc = false ∧
        e.isListen = false :=
  c5_construction_failure_aborts brokenWorld { defaultContext with pushInterval := 5 } 3
    { text := "no such socket" } rfl

/-- C8: in every run `MustRegister` is called at most once.  When construction
succeeds the trace is the start-up logs, the construction, the registration of
the constructed collector and then the rest; the start-up logs hold no
`go` statement, push call or route registration and the rest holds no further
registration, so the one registration comes right after construction and
before the goroutine and the routes.  The default registry ends as its initial
content plus that collector, and every collector or attempt of the push client
uses that same collector. -/
theorem c8_single_registration (w : World) (c : Context) (fuel : Nat) :
    (appAction w c fuel).trace.countP Event.isRegister ≤ 1 ∧
    ∀ col, w.newStatsCollector c = Except.ok col →
      (∃ rest, (appAction w c fuel).trace =
          startEvents c ++
            [Event.newStatsCollector, Event.mustRegister (Collector.stats col)] ++ rest ∧
        ∀ e ∈ rest, e.isRegister = false) ∧
      (∀ e ∈ startEvents c,
        e.isRegister = false ∧ e.isPush = false ∧ e.isHandleFunc = false) ∧
      (appAction w c fuel).trace.countP Event.isRegister = 1 ∧
      (appAction w c fuel).registry = defaultRegistry ++ [Collector.stats col] ∧
      ∀ a, (appAction w c fuel).agent = some a →
        (∀ x, Event.clientCollector x ∈ a.trace → x = Collector.stats col) ∧
        (∀ p r, Event.add p r ∈ a.trace → p.collectors = [Collector.stats col]) := by
  have hstart : (startEvents c).countP Event.isRegister = 0 := by
    rw [List.countP_eq_zero]; intro e he; simp [(startEvents_quiet c e he).1]
  have hcount : ∀ col, w.newStatsCollector c = Except.ok col →
      (appAction w c fuel).trace.countP Event.isRegister = 1 := by
    intro col hc
    obtain ⟨⟨rest, ht, hrest⟩, _, _⟩ := appAction_ok_frame w c fuel col hc
    have hz : rest.countP Event.isRegister = 0 := by
      rw [List.countP_eq_zero]; intro e he; simp [hrest e he]
    rw [ht]
    simp [List.countP_append, List.countP_cons, hstart, hz, Event.isRegister]
  constructor
  · cases hc : w.newStatsCollector c with
    | error err =>
      rw [appAction_error w c fuel err hc]
      simp [List.countP_append, List.countP_cons, hstart, Event.isRegister]
    | ok col => rw [hcount col hc]
  · intro col hc
    obtain ⟨h1, h2, h3⟩ := appAction_ok_frame w c fuel col hc
    refine ⟨h1, ?_, hcount col hc, h2, ?_⟩
    · intro e he
      exact ⟨(startEvents_quiet c e he).1, (startEvents_quiet c e he).2.1,
        (startEvents_quiet c e he).2.2.1⟩
    · intro a ha
      rcases h3 with h3 | h3
      · rw [h3] at ha; cases ha
      · rw [h3] at ha
        injection ha with ha
        subst ha
        exact pushAgent_collector w c col c.pushInterval fuel

/-- Witness of C8: the sample world with pushing every 5 seconds. -/
theorem c8_single_registration_witness :
    (appAction sampleWorld { defaultContext with pushInterval := 5 } 3).trace.countP
        Event.isRegister = 1 ∧
    (appAction sampleWorld { defaultContext with pushInterval := 5 } 3).registry =
      defaultRegistry ++ [Collector.stats { id := 7 }] :=
  ⟨((c8_single_registration sampleWorld { defaultContext with pushInterval := 5 } 3).2
      { id := 7 } rfl).2.2.1,
   ((c8_single_registration sampleWorld { defaultContext with pushInterval := 5 } 3).2
      { id := 7 } rfl).2.2.2.1⟩

/-- C6, as stated, fails: with the metrics path "/" the second `HandleFunc`
panics on the pattern registered just before, with the empty metrics path it
panics on the invalid pattern, and with "/debug/vars" it panics on the pattern
the expvar package registered in its init; in the three runs only the root
route was added to the mux and `ListenAndServe` is never called. -/
theorem c6_counterexample :
    ((appAction sampleWorld { defaultContext with metricsPath := "/" } 3).outcome =
        Outcome.panicked "http: multiple registrations for /" ∧
      (appAction sampleWorld { defaultContext with metricsPath := "/" } 3).mux =
        [("/debug/vars", Handler.preset "expvar"), ("/", Handler.infoPage (rootPage "/"))] ∧
      ∀ e ∈ (appAction sampleWorld { defaultContext with metricsPath := "/" } 3).trace,
        e.isListen = false) ∧
    ((appAction sampleWorld { defaultContext with metricsPath := "" } 3).outcome =
        Outcome.panicked "http: invalid pattern" ∧
      (appAction sampleWorld { defaultContext with metricsPath := "" } 3).mux =
        [("/debug/vars", Handler.preset "expvar"), ("/", Handler.infoPage (rootPage ""))] ∧
      ∀ e ∈ (appAction sampleWorld { defaultContext with metricsPath := "" } 3).trace,
        e.isListen = false) ∧
    ((appAction sampleWorld { defaultContext with metricsPath := "/debug/vars" } 3).outcome =
        Outcome.panicked "http: multiple registrations for /debug/vars" ∧
      (appAction sampleWorld { defaultContext with metricsPath := "/debug/vars" } 3).mux =
        [("/debug/vars", Handler.preset "expvar"),
         ("/", Handler.infoPage (rootPage "/debug/vars"))] ∧
      ∀ e ∈ (appAction sampleWorld { defaultContext with metricsPath := "/debug/vars" } 3).trace,
        e.isListen = false) := by
  refine ⟨⟨?_, ?_, ?_⟩, ⟨?_, ?_, ?_⟩, ⟨?_, ?_, ?_⟩⟩ <;> decide

/-- C6, amended: when construction succeeds, "/" is not registered on the
default mux on entry, and the metrics path is not empty, is not "/" and is not
a pattern registered on the default mux on entry, route registration does not
panic, the calls of `HandleFunc` are exactly two, and the mux ends as what it
held on entry plus exactly two routes: "/" bound to the informational page and
the metrics path bound to the metrics handler. -/
theorem c6_two_routes (w : World) (c : Context) (fuel : Nat) (col : StatsCollector)
    (hc : w.newStatsCollector c = Except.ok col)
    (h1 : c.metricsPath ≠ "") (h2 : c.metricsPath ≠ "/")
    (h3 : "/" ∉ w.muxAtStart.map Prod.fst) (h4 : c.metricsPath ∉ w.muxAtStart.map Prod.fst) :
    (appAction w c fuel).mux =
      w.muxAtStart ++
        [("/", Handler.infoPage (rootPage c.metricsPath)), (c.metricsPath, Handler.promhttp)] ∧
    (∀ msg, (appAction w c fuel).outcome ≠ Outcome.panicked msg) ∧
    (appAction w c fuel).trace.filter Event.isHandleFunc =
      [Event.handleFunc "/" (Handler.infoPage (rootPage c.metricsPath)),
       Event.handleFunc c.metricsPath Handler.promhttp] := by
  have hstart : (startEvents c).filter Event.isHandleFunc = [] := by
    rw [List.filter_eq_nil_iff]; intro e he; simp [(startEvents_quiet c e he).2.2.1]
  rw [appAction_ok w c fuel col hc]
  split
  · rw [serve_ok w c _ _ _ h1 h2 h3 h4]
    refine ⟨rfl, ?_, ?_⟩
    · intro msg; dsimp only; split <;> simp
    · simp [List.filter_cons, hstart, Event.isHandleFunc]
  · rw [serve_ok w c _ _ _ h1 h2 h3 h4]
    refine ⟨rfl, ?_, ?_⟩
    · intro msg; dsimp only; split <;> simp
    · simp [List.filter_cons, hstart, Event.isHandleFunc]

/-- Witness of C6 amended: the default configuration, with the expvar route on
the mux on entry. -/
theorem c6_two_routes_witness :
    (appAction sampleWorld defaultContext 3).mux =
      sampleWorld.muxAtStart ++
        [("/", Handler.infoPage (rootPage defaultContext.metricsPath)),
         (defaultContext.metricsPath, Handler.promhttp)] ∧
    (∀ msg, (appAction sampleWorld defaultContext 3).outcome ≠ Outcome.panicked msg) ∧
    (appAction sampleWorld defaultContext 3).trace.filter Event.isHandleFunc =
      [Event.handleFunc "/" (Handler.infoPage (rootPage defaultContext.metricsPath)),
       Event.handleFunc defaultContext.metricsPath Handler.promhttp] :=
  c6_two_routes sampleWorld defaultContext 3 { id := 7 } rfl (by decide) (by decide)
    (by decide) (by decide)

/-- C1, as stated, fails in its last part: with pushInterval 0, the routes are
not registered and the server does not listen when construction fails, nor
when the metrics path is "/", empty, or the pattern "/debug/vars" that the
expvar package registered in its init. -/
theorem c1_counterexample :
    (defaultContext.pushInterval ≤ 0 ∧
      (appAction brokenWorld defaultContext 3).mux = brokenWorld.muxAtStart ∧
      (∀ e ∈ (appAction brokenWorld defaultContext 3).trace, e.isListen = false) ∧
      ¬ ServesTwoRoutes brokenWorld defaultContext (appAction brokenWorld defaultContext 3)) ∧
    (({ defaultContext with metricsPath := "/" } : Context).pushInterval ≤ 0 ∧
      (∀ e ∈ (appAction sampleWorld { defaultContext with metricsPath := "/" } 3).trace,
        e.isListen = false) ∧
      ¬ ServesTwoRoutes sampleWorld { defaultContext with metricsPath := "/" }
          (appAction sampleWorld { defaultContext with metricsPath := "/" } 3)) ∧
    (({ defaultContext with metricsPath := "" } : Context).pushInterval ≤ 0 ∧
      (∀ e ∈ (appAction sampleWorld { defaultContext with metricsPath := "" } 3).trace,
        e.isListen = false) ∧
      ¬ ServesTwoRoutes sampleWorld { defaultContext with metricsPath := "" }
          (appAction sampleWorld { defaultContext with metricsPath := "" } 3)) ∧
    (({ defaultContext with metricsPath := "/debug/vars" } : Context).pushInterval ≤ 0 ∧
      (∀ e ∈
          (appAction sampleWorld { defaultContext with metricsPath := "/debug/vars" } 3).trace,
        e.isListen = false) ∧
      ¬ ServesTwoRoutes sampleWorld { defaultContext with metricsPath := "/debug/vars" }
          (appAction sampleWorld { defaultContext with metricsPath := "/debug/vars" } 3)) := by
  refine ⟨⟨?_, ?_, ?_, ?_⟩, ⟨?_, ?_, ?_⟩, ⟨?_, ?_, ?_⟩, ⟨?_, ?_, ?_⟩⟩ <;> decide

/-- C1, amended: for every configuration with pushInterval <= 0 and in every
run, no goroutine is started and the main goroutine makes no push call (no
client, no attempt, no sleep); when moreover construction succeeds, "/" is not
registered on the default mux on entry, and the metrics path is not empty, is
not "/" and is not a pattern registered on the default mux on entry, both
routes are registered and the server listens. -/
theorem c1_no_push_when_interval_not_positive (w : World) (c : Context) (fuel : Nat)
    (h : c.pushInterval ≤ 0) :
    NoPushActivity (appAction w c fuel) ∧
    ∀ col, w.newStatsCollector c = Except.ok col → c.metricsPath ≠ "" →
      c.metricsPath ≠ "/" → "/" ∉ w.muxAtStart.map Prod.fst →
      c.metricsPath ∉ w.muxAtStart.map Prod.fst →
      ServesTwoRoutes w c (appAction w c fuel) := by
  have hneg : ¬ 0 < c.pushInterval := by omega
  constructor
  · cases hc : w.newStatsCollector c with
    | error err =>
      rw [appAction_error w c fuel err hc]
      refine ⟨rfl, ?_⟩
      intro e he
      simp only [List.mem_append, List.mem_singleton] at he
      rcases he with he | rfl
      · exact (startEvents_quiet c e he).2.1
      · rfl
    | ok col =>
      rw [appAction_ok w c fuel col hc, if_neg hneg]
      obtain ⟨_, ha, rest, ht, hrest⟩ := serve_frame w c
        (startEvents c ++
          [Event.newStatsCollector, Event.mustRegister (Collector.stats col)])
        (defaultRegistry ++ [Collector.stats col]) none
      refine ⟨ha, ?_⟩
      intro e he
      rw [ht] at he
      simp only [List.mem_append, List.mem_cons, List.mem_singleton] at he
      rcases he with (he | rfl | rfl | he) | he
      · exact (startEvents_quiet c e he).2.1
      · rfl
      · rfl
      · simp at he
      · exact (hrest e he).2
  · intro col hc h1 h2 h3 h4
    rw [appAction_ok w c fuel col hc, if_neg hneg, serve_ok w c _ _ _ h1 h2 h3 h4]
    exact ⟨rfl, by simp⟩

/-- Witness of C1 amended: a negative interval in the sample world. -/
theorem c1_no_push_when_interval_not_positive_witness :
    NoPushActivity (appAction sampleWorld { defaultContext with pushInterval := -3 } 3) ∧
    ServesTwoRoutes sampleWorld { defaultContext with pushInterval := -3 }
      (appAction sampleWorld { defaultContext with pushInterval := -3 } 3) :=
  ⟨(c1_no_push_when_interval_not_positive sampleWorld
      { defaultContext with pushInterval := -3 } 3 (by decide)).1,
   (c1_no_push_when_interval_not_positive sampleWorld
      { defaultContext with pushInterval := -3 } 3 (by decide)).2 { id := 7 } rfl
      (by decide) (by decide) (by decide) (by decide)⟩

/-! ## The push client: grouping identity and gathered collectors -/

/-- C4: the grouping value is set once, under the label name "instance",
before the loop.  With a non-empty `host` flag it is that flag and
`os.Hostname` is not called; with an empty flag and a successful resolution it
is the resolved name; with an empty flag and a failed resolution it is the
value returned alongside the error, after one error log.  In all three cases
the next call is the first push attempt, made on a client whose only grouping
label is that value, and the loop never resolves or sets the value again. -/
theorem c4_grouping_identity (w : World) (c : Context) (col : StatsCollector) (i : Int)
    (fuel : Nat) :
    (c.host ≠ "" → ∃ rest, (pushAgent w c col i (fuel + 1)).trace =
      [Event.pushNew (sprintfAddr c.gatewayHost c.gatewayPort) "kamailio",
       Event.clientCollector (Collector.stats col),
       Event.clientGrouping "instance" c.host,
       Event.add
         { url := sprintfAddr c.gatewayHost c.gatewayPort, job := "kamailio"
           collectors := [Collector.stats col], grouping := [("instance", c.host)] }
         (w.pushResult 0)] ++ rest) ∧
    (c.host = "" → ∀ name, w.hostname = (name, none) →
      ∃ rest, (pushAgent w c col i (fuel + 1)).trace =
        [Event.pushNew (sprintfAddr c.gatewayHost c.gatewayPort) "kamailio",
         Event.clientCollector (Collector.stats col),
         Event.osHostname,
         Event.clientGrouping "instance" name,
         Event.add
           { url := sprintfAddr c.gatewayHost c.gatewayPort, job := "kamailio"
             collectors := [Collector.stats col], grouping := [("instance", name)] }
           (w.pushResult 0)] ++ rest) ∧
    (c.host = "" → ∀ name err, w.hostname = (name, some err) →
      ∃ rest, (pushAgent w c col i (fuel + 1)).trace =
        [Event.pushNew (sprintfAddr c.gatewayHost c.gatewayPort) "kamailio",
         Event.clientCollector (Collector.stats col),
         Event.osHostname,
         Event.logWithError err "Unable to get hostname.",
         Event.clientGrouping "instance" name,
         Event.add
           { url := sprintfAddr c.gatewayHost c.gatewayPort, job := "kamailio"
             collectors := [Collector.stats col], grouping := [("instance", name)] }
           (w.pushResult 0)] ++ rest) ∧
    (∀ e ∈ (pushLoop w (agentClient w c col) (sprintfAddr c.gatewayHost c.gatewayPort) i
        (fuel + 1) 0).trace,
      e ≠ Event.osHostname ∧ ∀ name value, e ≠ Event.clientGrouping name value) := by
  obtain ⟨rest, hrest⟩ := pushLoop_first w (agentClient w c col)
    (sprintfAddr c.gatewayHost c.gatewayPort) i fuel
  refine ⟨?_, ?_, ?_, ?_⟩
  · intro hh
    refine ⟨rest, ?_⟩
    rw [pushAgent_trace, hrest]
    simp [agentSetup, agentClient, resolveHost, hh, Pusher.setGrouping, Pusher.addCollector,
      pushNew]
  · intro hh name hn
    refine ⟨rest, ?_⟩
    rw [pushAgent_trace, hrest]
    simp [agentSetup, agentClient, resolveHost, hh, hn, Pusher.setGrouping,
      Pusher.addCollector, pushNew]
  · intro hh name err hn
    refine ⟨rest, ?_⟩
    rw [pushAgent_trace, hrest]
    simp [agentSetup, agentClient, resolveHost, hh, hn, Pusher.setGrouping,
      Pusher.addCollector, pushNew]
  · intro e he
    exact ⟨(pushLoop_no_setup w _ _ _ _ _ e he).1, (pushLoop_no_setup w _ _ _ _ _ e he).2.1⟩

/-- Witness of C4: no `host` flag and a failing host-name resolution; the
first attempt is made all the same, with an empty grouping value. -/
theorem c4_grouping_identity_witness :
    ∃ rest, (pushAgent namelessWorld defaultContext { id := 7 } 5 (0 + 1)).trace =
      [Event.pushNew (sprintfAddr defaultContext.gatewayHost defaultContext.gatewayPort)
         "kamailio",
       Event.clientCollector (Collector.stats { id := 7 }),
       Event.osHostname,
       Event.logWithError { text := "uname failed" } "Unable to get hostname.",
       Event.clientGrouping "instance" "",
       Event.add
         { url := sprintfAddr defaultContext.gatewayHost defaultContext.gatewayPort
           job := "kamailio"
           collectors := [Collector.stats { id := 7 }], grouping := [("instance", "")] }
         (namelessWorld.pushResult 0)] ++ rest :=
  (c4_grouping_identity namelessWorld defaultContext { id := 7 } 5 0).2.2.1 rfl ""
    { text := "uname failed" } rfl

/-- C7, as stated, fails: in the sample run with pushing enabled the one push
attempt is made on a client that gathers the stats collector only, while a
scrape gathers the process collector, the Go collector and the stats
collector; the two sets differ. -/
theorem c7_counterexample :
    (appAction sampleWorld { defaultContext with pushInterval := 5 } 1).agent.map
        (fun a => a.trace.filter Event.isAdd) =
      some [Event.add (agentClient sampleWorld defaultContext { id := 7 }) none] ∧
    pushGathered (agentClient sampleWorld defaultContext { id := 7 }) =
      [Collector.stats { id := 7 }] ∧
    scrapeGathered (appAction sampleWorld { defaultContext with pushInterval := 5 } 1) =
      [Collector.processCollector, Collector.goCollector, Collector.stats { id := 7 }] ∧
    ¬ (∀ x, x ∈ pushGathered (agentClient sampleWorld defaultContext { id := 7 }) ↔
        x ∈ scrapeGathered
          (appAction sampleWorld { defaultContext with pushInterval := 5 } 1)) := by
  refine ⟨by decide, by decide, by decide, ?_⟩
  intro h
  exact absurd ((h Collector.goCollector).2 (by decide)) (by decide)

/-- C7, amended: when construction succeeds, every push attempt gathers from
the pusher's own registry, which holds the stats collector only, and a scrape
gathers from the default registry, which holds the process collector, the Go
collector and the stats collector.  The stats collector is in both, every
collector the push gathers is also gathered by a scrape, and the Go collector
is gathered by a scrape only. -/
theorem c7_push_gathers_stats_only (w : World) (c : Context) (fuel : Nat)
    (col : StatsCollector) (hc : w.newStatsCollector c = Except.ok col) :
    (∀ a, (appAction w c fuel).agent = some a →
      ∀ p r, Event.add p r ∈ a.trace → pushGathered p = [Collector.stats col]) ∧
    scrapeGathered (appAction w c fuel) =
      [Collector.processCollector, Collector.goCollector, Collector.stats col] ∧
    (∀ a, (appAction w c fuel).agent = some a →
      ∀ p r, Event.add p r ∈ a.trace →
        (∀ x ∈ pushGathered p, x ∈ scrapeGathered (appAction w c fuel)) ∧
        Collector.goCollector ∉ pushGathered p) ∧
    Collector.goCollector ∈ scrapeGathered (appAction w c fuel) := by
  obtain ⟨_, hreg, hagent⟩ := appAction_ok_frame w c fuel col hc
  have hpush : ∀ a, (appAction w c fuel).agent = some a →
      ∀ p r, Event.add p r ∈ a.trace → pushGathered p = [Collector.stats col] := by
    intro a ha p r hp
    rcases hagent with h3 | h3
    · rw [h3] at ha; cases ha
    · rw [h3] at ha
      injection ha with ha
      subst ha
      exact (pushAgent_collector w c col c.pushInterval fuel).2 p r hp
  have hscrape : scrapeGathered (appAction w c fuel) =
      [Collector.processCollector, Collector.goCollector, Collector.stats col] := by
    simp [scrapeGathered, hreg, defaultRegistry]
  refine ⟨hpush, hscrape, ?_, ?_⟩
  · intro a ha p r hp
    rw [hpush a ha p r hp, hscrape]
    simp
  · rw [hscrape]; simp

/-- Witness of C7 amended: the sample world. -/
theorem c7_push_gathers_stats_only_witness :
    scrapeGathered (appAction sampleWorld { defaultContext with pushInterval := 5 } 2) =
      [Collector.processCollector, Collector.goCollector, Collector.stats { id := 7 }] ∧
    ∀ a, (appAction sampleWorld { defaultContext with pushInterval := 5 } 2).agent = some a →
      ∀ p r, Event.add p r ∈ a.trace → pushGathered p = [Collector.stats { id := 7 }] :=
  ⟨(c7_push_gathers_stats_only sampleWorld { defaultContext with pushInterval := 5 } 2
      { id := 7 } rfl).2.1,
   (c7_push_gathers_stats_only sampleWorld { defaultContext with pushInterval := 5 } 2
      { id := 7 } rfl).1⟩

end KamailioExporter
